import Mathlib

/-!
Shallow embedding of the parameter-extraction layer of the rquickjs
repository: `core/src/value/function/params.rs` (Params, ParamsAccessor,
ParamReq, the FromParam impls and the tuple FromParams impls) and
`src/value/convert/multi.rs` (the FromJsMulti impls).

Engine values (`qjs::JSValue` / `Value`) are modelled by a type parameter
`V`; a `FromJs` conversion is an explicit function `Ctx → V → Except Error T`.
The accessor methods that take `&mut self` in Rust are modelled by explicit
state passing: they return the new accessor together with the result.
The places where the Rust code panics (the `assert!` in
`ParamsAccessor::arg`) are modelled by the dedicated outcome `Error.Fault`,
kept distinct from the recoverable error variants.
-/

/-- The ceiling of the Rust type `usize` (64-bit build). -/
def USIZE_MAX : Nat := 2 ^ 64 - 1

/-- Model of `usize::saturating_add` on the `Nat` model of `usize`. -/
def saturating_add (a b : Nat) : Nat := min (a + b) USIZE_MAX

/-- Model of the engine context handle `Ctx`; it carries no data relevant
to this layer and is threaded through unchanged. -/
inductive Ctx where
  | mk
  deriving DecidableEq

/-- Model of `crate::Error`, restricted to the variants this layer
creates. `MissingArgs` and `TooManyArgs` come from `Params::check_params`;
`MissingArguments` (positional fields: seen length, expected) comes from
the `FromJsMulti` impls; `FromJsError` stands for conversion errors of the
external `FromJs` collaborator; `Fault` stands for the assertion failure
(panic) in `ParamsAccessor::arg`, which in Rust is not a recoverable
error at all. -/
inductive Error where
  | MissingArgs (expected given : Nat)
  | TooManyArgs (expected given : Nat)
  | MissingArguments (seen expected : Nat)
  | FromJsError (code : Nat)
  | Fault
  deriving DecidableEq

/-- Model of `ParamReq`: the requirements of a parameter set. -/
structure ParamReq where
  min : Nat
  max : Nat
  exhaustive : Bool
  deriving DecidableEq

/-- Model of `ParamReq::single`. -/
def ParamReq.single : ParamReq := ⟨1, 1, false⟩

/-- Model of `ParamReq::exhaustive`. -/
def ParamReq.exhaustive_req : ParamReq := ⟨0, 0, true⟩

/-- Model of `ParamReq::optional`. -/
def ParamReq.optional : ParamReq := ⟨0, 1, false⟩

/-- Model of `ParamReq::any`. -/
def ParamReq.any : ParamReq := ⟨0, USIZE_MAX, false⟩

/-- Model of `ParamReq::none`. -/
def ParamReq.none_req : ParamReq := ⟨0, 0, false⟩

/-- Model of `ParamReq::combine`. -/
def ParamReq.combine (self other : ParamReq) : ParamReq :=
  ⟨saturating_add self.min other.min,
   saturating_add self.max other.max,
   self.exhaustive || other.exhaustive⟩

/-- Model of `Params`: the values a callback is called with. The Rust
fields are `ctx`, `function`, `this` and `args`; the two JSValue slots are
named `function_slot` and `this_slot` here so that the accessor methods
`Params.function` and `Params.this` below can keep their source names. -/
structure Params (V : Type) where
  ctx : Ctx
  function_slot : V
  this_slot : V
  args : List V
  deriving DecidableEq

variable {V A B C D T U : Type}

/-- Model of `Params::check_params`. -/
def Params.check_params (p : Params V) (num : ParamReq) : Except Error Unit :=
  if p.args.length < num.min then
    Except.error (Error.MissingArgs num.min p.args.length)
  else if num.exhaustive && decide (num.max < p.args.length) then
    Except.error (Error.TooManyArgs num.max p.args.length)
  else
    Except.ok ()

/-- Model of `Params::function`: materializes the call-target slot. -/
def Params.function (p : Params V) : V := p.function_slot

/-- Model of `Params::this`. NOTE: the source body reads `self.function`,
not `self.this`, even though its documentation says it returns the value
the function was called on (the `bla` in `bla.foo()`). The embedding is
faithful to the body. -/
def Params.this (p : Params V) : V := p.function_slot

/-- Model of `Params::arg`: the argument at a given index, if in range. -/
def Params.arg (p : Params V) (index : Nat) : Option V := p.args.get? index

/-- Model of `Params::len`. -/
def Params.len (p : Params V) : Nat := p.args.length

/-- Model of `Params::is_empty`. -/
def Params.is_empty (p : Params V) : Bool := p.args.isEmpty

/-- Model of `ParamsAccessor`: a params cursor with a consumption offset. -/
structure ParamsAccessor (V : Type) where
  params : Params V
  offset : Nat
  deriving DecidableEq

/-- Model of `Params::access`: the cursor starts at offset 0. -/
def Params.access (p : Params V) : ParamsAccessor V := ⟨p, 0⟩

/-- Model of `ParamsAccessor::ctx`. -/
def ParamsAccessor.ctx (p : ParamsAccessor V) : Ctx := p.params.ctx

/-- Model of `ParamsAccessor::this`: delegates to `Params.this`. -/
def ParamsAccessor.this (p : ParamsAccessor V) : V := p.params.this

/-- Model of `ParamsAccessor::function`: delegates to `Params.function`. -/
def ParamsAccessor.function (p : ParamsAccessor V) : V := p.params.function

/-- Model of `ParamsAccessor::arg`: returns the argument at the current
offset and the advanced cursor, or `none` exactly where the Rust code
fails its assertion (offset at or past the argument count). -/
def ParamsAccessor.arg (p : ParamsAccessor V) : Option (V × ParamsAccessor V) :=
  if h : p.offset < p.params.args.length then
    some (p.params.args.get ⟨p.offset, h⟩, ⟨p.params, p.offset + 1⟩)
  else
    none

/-- Model of `ParamsAccessor::len`: the number of remaining arguments. -/
def ParamsAccessor.len (p : ParamsAccessor V) : Nat :=
  p.params.args.length - p.offset

/-- Model of `ParamsAccessor::is_empty`. -/
def ParamsAccessor.is_empty (p : ParamsAccessor V) : Bool := p.len == 0

/-- Model of the wrapper `Opt`: an optional argument. -/
structure Opt (T : Type) where
  val : Option T
  deriving DecidableEq

/-- Model of the wrapper `Rest`: the rest of the arguments. -/
structure Rest (T : Type) where
  val : List T
  deriving DecidableEq

/-- Model of the wrapper `This`: the value the function was called on. -/
structure This (T : Type) where
  val : T
  deriving DecidableEq

/-- Model of the wrapper `Func`: the function value itself. -/
structure Func (T : Type) where
  val : T
  deriving DecidableEq

/-- Model of the wrapper `Flat`: a flattened nested parameter tuple. -/
structure Flat (T : Type) where
  val : T
  deriving DecidableEq

/-- Model of the marker `Exhaustive`. -/
inductive Exhaustive where
  | mk
  deriving DecidableEq

/-- A `FromJs` conversion of the external collaborator: context and one
engine value to a typed host value, or a conversion error. -/
def FromJsFn (V T : Type) : Type := Ctx → V → Except Error T

/-- Model of `FromParam::from_param` of the blanket impl for `T: FromJs`:
take the next argument (faulting like the source if none is left) and
convert it. -/
def plain_from_param (f : FromJsFn V T) (p : ParamsAccessor V) :
    Except Error (T × ParamsAccessor V) :=
  match p.arg with
  | none => Except.error Error.Fault
  | some (v, q) =>
    match f p.ctx v with
    | Except.ok t => Except.ok (t, q)
    | Except.error e => Except.error e

/-- Model of `FromParam::from_param` for `Opt<T>`. -/
def Opt.from_param (f : FromJsFn V T) (p : ParamsAccessor V) :
    Except Error (Opt T × ParamsAccessor V) :=
  if !p.is_empty then
    match p.arg with
    | none => Except.error Error.Fault
    | some (v, q) =>
      match f p.ctx v with
      | Except.ok t => Except.ok (⟨some t⟩, q)
      | Except.error e => Except.error e
  else
    Except.ok (⟨none⟩, p)

/-- Model of `FromParam::from_param` for `This<T>`: converts
`params.this()` and leaves the cursor untouched. -/
def This.from_param (f : FromJsFn V T) (p : ParamsAccessor V) :
    Except Error (This T × ParamsAccessor V) :=
  match f p.ctx p.this with
  | Except.ok t => Except.ok (⟨t⟩, p)
  | Except.error e => Except.error e

/-- Model of `FromParam::from_param` for `Func<T>`: converts
`params.function()` and leaves the cursor untouched. -/
def Func.from_param (f : FromJsFn V T) (p : ParamsAccessor V) :
    Except Error (Func T × ParamsAccessor V) :=
  match f p.ctx p.function with
  | Except.ok t => Except.ok (⟨t⟩, p)
  | Except.error e => Except.error e

/-- The loop of the `Rest<T>` impl: `for _ in 0..params.len()` taking one
argument per iteration and converting it, collecting in order. -/
def Rest.loop (f : FromJsFn V T) (ctx : Ctx) :
    Nat → ParamsAccessor V → Except Error (List T × ParamsAccessor V)
  | 0, p => Except.ok ([], p)
  | n + 1, p =>
    match p.arg with
    | none => Except.error Error.Fault
    | some (v, q) =>
      match f ctx v with
      | Except.ok t =>
        match Rest.loop f ctx n q with
        | Except.ok (ts, r) => Except.ok (t :: ts, r)
        | Except.error e => Except.error e
      | Except.error e => Except.error e

/-- Model of `FromParam::from_param` for `Rest<T>`: the iteration count
`params.len()` is read once, before the loop runs. -/
def Rest.from_param (f : FromJsFn V T) (p : ParamsAccessor V) :
    Except Error (Rest T × ParamsAccessor V) :=
  match Rest.loop f p.ctx p.len p with
  | Except.ok (ts, q) => Except.ok (⟨ts⟩, q)
  | Except.error e => Except.error e

/-- Model of `FromParam::from_param` for `Exhaustive`: a no-op. -/
def Exhaustive.from_param (p : ParamsAccessor V) :
    Except Error (Exhaustive × ParamsAccessor V) :=
  Except.ok (Exhaustive.mk, p)

/-- A `FromParam` impl as a value: its declared requirement together with
its extraction function. -/
structure FromParamImpl (V T : Type) where
  params_required : ParamReq
  from_param : ParamsAccessor V → Except Error (T × ParamsAccessor V)

/-- A `FromParams` impl as a value: the aggregate requirement together
with the aggregate extraction function. -/
structure FromParamsImpl (V T : Type) where
  params_requirements : ParamReq
  from_params : ParamsAccessor V → Except Error (T × ParamsAccessor V)

/-- The blanket `FromParam` impl for a plain `T: FromJs` position. -/
def FromParamImpl.plain (f : FromJsFn V T) : FromParamImpl V T :=
  ⟨ParamReq.single, plain_from_param f⟩

/-- The `FromParam` impl for `Opt<T>`. -/
def FromParamImpl.opt (f : FromJsFn V T) : FromParamImpl V (Opt T) :=
  ⟨ParamReq.optional, Opt.from_param f⟩

/-- The `FromParam` impl for `This<T>`. -/
def FromParamImpl.this_impl (f : FromJsFn V T) : FromParamImpl V (This T) :=
  ⟨ParamReq.any, This.from_param f⟩

/-- The `FromParam` impl for `Func<T>`. -/
def FromParamImpl.func_impl (f : FromJsFn V T) : FromParamImpl V (Func T) :=
  ⟨ParamReq.any, Func.from_param f⟩

/-- The `FromParam` impl for `Rest<T>`. -/
def FromParamImpl.rest (f : FromJsFn V T) : FromParamImpl V (Rest T) :=
  ⟨ParamReq.any, Rest.from_param f⟩

/-- Model of `FromParam::from_param` for `Flat<T>`: delegates to the
nested `FromParams` impl against the same cursor. -/
def Flat.from_param (t : FromParamsImpl V T) (p : ParamsAccessor V) :
    Except Error (Flat T × ParamsAccessor V) :=
  match t.from_params p with
  | Except.ok (x, q) => Except.ok (⟨x⟩, q)
  | Except.error e => Except.error e

/-- The `FromParam` impl for `Flat<T>`: requirement and extraction both
delegate to the nested tuple impl. -/
def FromParamImpl.flat (t : FromParamsImpl V T) : FromParamImpl V (Flat T) :=
  ⟨t.params_requirements, Flat.from_param t⟩

/-- The `FromParam` impl for `Exhaustive`. -/
def FromParamImpl.exhaustive_impl : FromParamImpl V Exhaustive :=
  ⟨ParamReq.exhaustive_req, Exhaustive.from_param⟩

/-- The nullary instance of the arity-generic `FromParams` impl. -/
def from_params_tuple0 : FromParamsImpl V Unit :=
  ⟨ParamReq.none_req, fun p => Except.ok ((), p)⟩

/-- The unary instance of the arity-generic `FromParams` impl. -/
def from_params_tuple1 (a : FromParamImpl V A) : FromParamsImpl V A :=
  ⟨ParamReq.none_req.combine a.params_required,
   fun p =>
     match a.from_param p with
     | Except.ok (x, p1) => Except.ok (x, p1)
     | Except.error e => Except.error e⟩

/-- The binary instance of the arity-generic `FromParams` impl. -/
def from_params_tuple2 (a : FromParamImpl V A) (b : FromParamImpl V B) :
    FromParamsImpl V (A × B) :=
  ⟨(ParamReq.none_req.combine a.params_required).combine b.params_required,
   fun p =>
     match a.from_param p with
     | Except.error e => Except.error e
     | Except.ok (x, p1) =>
       match b.from_param p1 with
       | Except.error e => Except.error e
       | Except.ok (y, p2) => Except.ok ((x, y), p2)⟩

/-- The ternary instance of the arity-generic `FromParams` impl. -/
def from_params_tuple3 (a : FromParamImpl V A) (b : FromParamImpl V B)
    (c : FromParamImpl V C) : FromParamsImpl V (A × B × C) :=
  ⟨((ParamReq.none_req.combine a.params_required).combine b.params_required).combine
      c.params_required,
   fun p =>
     match a.from_param p with
     | Except.error e => Except.error e
     | Except.ok (x, p1) =>
       match b.from_param p1 with
       | Except.error e => Except.error e
       | Except.ok (y, p2) =>
         match c.from_param p2 with
         | Except.error e => Except.error e
         | Except.ok (z, p3) => Except.ok ((x, y, z), p3)⟩

/-- Model of `FromJsMulti::from_js_multi` of the blanket impl for a single
`T: FromJs` target: the length is read before the iterator is consumed. -/
def from_js_multi_single (f : FromJsFn V T) (ctx : Ctx) (value : List V) :
    Except Error T :=
  let len := value.length
  match value with
  | [] => Except.error (Error.MissingArguments len 1)
  | v :: _ => f ctx v

/-- Model of the 3-tuple instance of the arity-generic `FromJsMulti` impl:
the length is read once, each position takes the next iterator element or
fails with `MissingArguments(len, 1)`, then converts it. -/
def from_js_multi3 (fa : FromJsFn V A) (fb : FromJsFn V B) (fc : FromJsFn V C)
    (ctx : Ctx) (value : List V) : Except Error (A × B × C) :=
  let len := value.length
  match value with
  | [] => Except.error (Error.MissingArguments len 1)
  | v1 :: t1 =>
    match fa ctx v1 with
    | Except.error e => Except.error e
    | Except.ok a =>
      match t1 with
      | [] => Except.error (Error.MissingArguments len 1)
      | v2 :: t2 =>
        match fb ctx v2 with
        | Except.error e => Except.error e
        | Except.ok b =>
          match t2 with
          | [] => Except.error (Error.MissingArguments len 1)
          | v3 :: _ =>
            match fc ctx v3 with
            | Except.error e => Except.error e
            | Except.ok c => Except.ok (a, b, c)

/-- Specification-side helper: convert a list front-to-back, stopping at
the first conversion failure. Used to state what draining a rest position
yields. -/
def convertList (f : V → Except Error T) : List V → Except Error (List T)
  | [] => Except.ok []
  | v :: vs =>
    match f v with
    | Except.ok t =>
      match convertList f vs with
      | Except.ok ts => Except.ok (t :: ts)
      | Except.error e => Except.error e
    | Except.error e => Except.error e

/-- The identity conversion on Nat engine values, used by concrete
instantiations. -/
def id_conv : FromJsFn Nat Nat := fun _ v => Except.ok v

/-- Helper: a successful step of the plain (blanket) extraction. -/
theorem plain_step (f : FromJsFn V T) (p : ParamsAccessor V)
    (h : p.offset < p.params.args.length) (t : T)
    (ht : f p.ctx (p.params.args.get ⟨p.offset, h⟩) = Except.ok t) :
    plain_from_param f p = Except.ok (t, ⟨p.params, p.offset + 1⟩) := by
  unfold plain_from_param ParamsAccessor.arg
  simp only [dif_pos h, ht]

/-- Helper: a successful run of the binary tuple composition. -/
theorem tuple2_step (a : FromParamImpl V A) (b : FromParamImpl V B)
    (p p1 p2 : ParamsAccessor V) (x : A) (y : B)
    (hx : a.from_param p = Except.ok (x, p1))
    (hy : b.from_param p1 = Except.ok (y, p2)) :
    (from_params_tuple2 a b).from_params p = Except.ok ((x, y), p2) := by
  unfold from_params_tuple2
  simp only [hx, hy]

/-- Helper: a successful run of the ternary tuple composition. -/
theorem tuple3_step (a : FromParamImpl V A) (b : FromParamImpl V B) (c : FromParamImpl V C)
    (p p1 p2 p3 : ParamsAccessor V) (x : A) (y : B) (z : C)
    (hx : a.from_param p = Except.ok (x, p1))
    (hy : b.from_param p1 = Except.ok (y, p2))
    (hz : c.from_param p2 = Except.ok (z, p3)) :
    (from_params_tuple3 a b c).from_params p = Except.ok ((x, y, z), p3) := by
  unfold from_params_tuple3
  simp only [hx, hy, hz]

/-- Helper: a successful step of the flattened extraction. -/
theorem flat_step (t : FromParamsImpl V T) (p q : ParamsAccessor V) (x : T)
    (hx : t.from_params p = Except.ok (x, q)) :
    (FromParamImpl.flat t).from_param p = Except.ok (Flat.mk x, q) := by
  unfold FromParamImpl.flat Flat.from_param
  simp only [hx]

/-- C3: `combine` adds the minima and the maxima saturating at the usize
ceiling, ors the exhaustive flags, and is commutative and associative. -/
theorem C3_combine_spec (a b c : ParamReq) :
    (a.combine b).min = min (a.min + b.min) USIZE_MAX ∧
    (a.combine b).max = min (a.max + b.max) USIZE_MAX ∧
    (a.combine b).exhaustive = (a.exhaustive || b.exhaustive) ∧
    a.combine b = b.combine a ∧
    (a.combine b).combine c = a.combine (b.combine c) := by
  refine ⟨rfl, rfl, rfl, ?_, ?_⟩
  · simp only [ParamReq.combine, ParamReq.mk.injEq, saturating_add]
    exact ⟨by omega, by omega, Bool.or_comm _ _⟩
  · simp only [ParamReq.combine, ParamReq.mk.injEq, saturating_add]
    exact ⟨by omega, by omega, Bool.or_assoc _ _ _⟩

/-- C2: `check_params` fails with `MissingArgs(min, n)` exactly when
`n < min`, fails with `TooManyArgs(max, n)` exactly when the requirement
is exhaustive, `min ≤ n` and `n > max`, and succeeds otherwise — in
particular a non-exhaustive requirement accepts any surplus. -/
theorem C2_check_params_spec (p : Params V) (num : ParamReq) :
    (p.check_params num = Except.error (Error.MissingArgs num.min p.args.length) ↔
      p.args.length < num.min) ∧
    (p.check_params num = Except.error (Error.TooManyArgs num.max p.args.length) ↔
      (num.exhaustive = true ∧ num.min ≤ p.args.length ∧ num.max < p.args.length)) ∧
    (p.check_params num = Except.ok () ↔
      (num.min ≤ p.args.length ∧ (num.exhaustive = true → p.args.length ≤ num.max))) := by
  unfold Params.check_params
  by_cases h1 : p.args.length < num.min <;>
    by_cases h2 : num.exhaustive = true <;>
    by_cases h3 : num.max < p.args.length <;>
    simp [h1, h2, h3] <;>
    omega

/-- C8: the cursor starts at offset 0, `arg` faults exactly when the
offset has reached the argument count, otherwise returns the argument at
the current offset and advances by one, preserving the invariant
`offset ≤ len(args)`; when arguments remain the fault branch is
unreachable. -/
theorem C8_cursor_arg_spec (pp : Params V) (p : ParamsAccessor V) :
    pp.access.offset = 0 ∧
    (p.arg = none ↔ p.params.args.length ≤ p.offset) ∧
    (∀ h : p.offset < p.params.args.length,
      p.arg = some (p.params.args.get ⟨p.offset, h⟩, ⟨p.params, p.offset + 1⟩)) ∧
    (∀ v q, p.arg = some (v, q) →
      q.offset = p.offset + 1 ∧ q.offset ≤ q.params.args.length) ∧
    (0 < p.len → p.arg ≠ none) := by
  refine ⟨rfl, ?_, ?_, ?_, ?_⟩
  · unfold ParamsAccessor.arg
    split
    · next h => simp; omega
    · next h => simp; omega
  · intro h
    unfold ParamsAccessor.arg
    simp only [dif_pos h]
  · intro v q hq
    unfold ParamsAccessor.arg at hq
    split at hq
    · next h =>
      simp only [Option.some.injEq, Prod.mk.injEq] at hq
      rcases hq with ⟨-, rfl⟩
      exact ⟨rfl, by simpa using h⟩
    · simp at hq
  · intro hlen hnone
    unfold ParamsAccessor.len at hlen
    unfold ParamsAccessor.arg at hnone
    rw [dif_pos (by omega)] at hnone
    simp at hnone

/-- C9: extracting a receiver-bound (`This`) or call-target-bound (`Func`)
position leaves the cursor offset and the remaining-argument count
unchanged. -/
theorem C9_this_func_offset (f : FromJsFn V T) (g : FromJsFn V U) (p : ParamsAccessor V) :
    (∀ t q, This.from_param f p = Except.ok (t, q) → q.offset = p.offset ∧ q.len = p.len) ∧
    (∀ t q, Func.from_param g p = Except.ok (t, q) → q.offset = p.offset ∧ q.len = p.len) := by
  constructor
  · intro t q hq
    unfold This.from_param at hq
    split at hq
    · simp only [Except.ok.injEq, Prod.mk.injEq] at hq
      rcases hq with ⟨-, rfl⟩
      exact ⟨rfl, rfl⟩
    · simp at hq
  · intro t q hq
    unfold Func.from_param at hq
    split at hq
    · simp only [Except.ok.injEq, Prod.mk.injEq] at hq
      rcases hq with ⟨-, rfl⟩
      exact ⟨rfl, rfl⟩
    · simp at hq

/-- C6: extracting an optional position with no argument remaining yields
the absent value and leaves the cursor untouched; with at least one
argument remaining it converts the argument at the current offset, yields
it as present, and advances the offset by exactly one. -/
theorem C6_opt_spec (f : FromJsFn V T) (p : ParamsAccessor V) :
    (p.len = 0 → Opt.from_param f p = Except.ok (⟨none⟩, p)) ∧
    (∀ (h : p.offset < p.params.args.length) (t : T),
      f p.ctx (p.params.args.get ⟨p.offset, h⟩) = Except.ok t →
      Opt.from_param f p = Except.ok (⟨some t⟩, ⟨p.params, p.offset + 1⟩)) := by
  constructor
  · intro h0
    unfold Opt.from_param
    simp [ParamsAccessor.is_empty, h0]
  · intro h t ht
    have hne : p.is_empty = false := by
      simp [ParamsAccessor.is_empty, ParamsAccessor.len]
      omega
    unfold Opt.from_param ParamsAccessor.arg
    simp only [hne, Bool.not_false, if_true, dif_pos h, ht]

/-- Helper: running the rest loop for exactly the remaining count drains
the suffix of the arguments from the current offset, in order, leaving the
cursor at the argument count, and propagates the first conversion
failure. -/
theorem rest_loop_drains (f : FromJsFn V T) (ct : Ctx) :
    ∀ (n : Nat) (p : ParamsAccessor V), p.offset + n = p.params.args.length →
      Rest.loop f ct n p =
        Except.map (fun ts => (ts, ⟨p.params, p.params.args.length⟩))
          (convertList (f ct) (p.params.args.drop p.offset)) := by
  intro n
  induction n with
  | zero =>
    intro p h
    obtain ⟨ps, off⟩ := p
    have hoff : off = ps.args.length := by simpa using h
    subst hoff
    simp [Rest.loop, convertList, Except.map, List.drop_length]
  | succ n ih =>
    intro p h
    have hlt : p.offset < p.params.args.length := by omega
    have harg : p.arg = some (p.params.args.get ⟨p.offset, hlt⟩, ⟨p.params, p.offset + 1⟩) := by
      unfold ParamsAccessor.arg
      rw [dif_pos hlt]
    have hdrop : p.params.args.drop p.offset =
        p.params.args.get ⟨p.offset, hlt⟩ :: p.params.args.drop (p.offset + 1) := by
      simp only [List.get_eq_getElem]
      exact List.drop_eq_getElem_cons hlt
    have hih := ih ⟨p.params, p.offset + 1⟩ (by simp only; omega)
    unfold Rest.loop
    rw [harg, hdrop]
    simp only [convertList]
    cases hv : f ct (p.params.args.get ⟨p.offset, hlt⟩) with
    | ok t =>
      rw [hih]
      cases hcv : convertList (f ct) (p.params.args.drop (p.offset + 1)) with
      | ok ts => simp [Except.map]
      | error e => simp [Except.map]
    | error e => simp [Except.map]

/-- C7: a rest position drains exactly the remaining arguments in
positional order into an ordered sequence of converted values, leaving the
cursor exhausted, and stops at the first conversion failure, propagating
it with no partial result. -/
theorem C7_rest_spec (f : FromJsFn V T) (p : ParamsAccessor V)
    (hinv : p.offset ≤ p.params.args.length) :
    Rest.from_param f p =
      Except.map (fun ts => (Rest.mk ts, ⟨p.params, p.params.args.length⟩))
        (convertList (f p.ctx) (p.params.args.drop p.offset)) := by
  unfold Rest.from_param
  rw [rest_loop_drains f p.ctx p.len p (by unfold ParamsAccessor.len; omega)]
  cases hc : convertList (f p.ctx) (p.params.args.drop p.offset) with
  | ok ts => simp [Except.map]
  | error e => simp [Except.map]

/-- Witness for C7 at a concrete cursor: three arguments, offset 1, the
identity conversion. -/
theorem C7_rest_spec_witness :
    Rest.from_param id_conv (ParamsAccessor.mk (Params.mk Ctx.mk 0 0 [5, 6, 7]) 1) =
      Except.map (fun ts => (Rest.mk ts, ParamsAccessor.mk (Params.mk Ctx.mk 0 0 [5, 6, 7]) 3))
        (convertList (id_conv Ctx.mk) [6, 7]) :=
  C7_rest_spec id_conv (ParamsAccessor.mk (Params.mk Ctx.mk 0 0 [5, 6, 7]) 1) (by decide)

/-- C4 counterexample: the outer signature (A, Flat<(B,C)>, D) with plain
positions does not consume 3 arguments: its aggregate minimum is 4, and
run against exactly 3 arguments the extraction runs out and faults on the
fourth position. -/
theorem C4_flat_three_args_counterexample :
    (from_params_tuple3 (FromParamImpl.plain id_conv)
        (FromParamImpl.flat (from_params_tuple2 (FromParamImpl.plain id_conv)
          (FromParamImpl.plain id_conv)))
        (FromParamImpl.plain id_conv)).params_requirements.min = 4 ∧
    (from_params_tuple3 (FromParamImpl.plain id_conv)
        (FromParamImpl.flat (from_params_tuple2 (FromParamImpl.plain id_conv)
          (FromParamImpl.plain id_conv)))
        (FromParamImpl.plain id_conv)).from_params
        (ParamsAccessor.mk (Params.mk Ctx.mk 0 0 [10, 11, 12]) 0) =
      Except.error Error.Fault :=
  ⟨by decide, rfl⟩

/-- C4 (amended): a flattened position declares exactly the nested tuple
aggregate requirement and its extraction runs the nested composition on
the same shared cursor; the outer signature (A, Flat<(B,C)>, D) with
plain positions consumes exactly 4 arguments, mapped in the order
A, B, C, D. -/
theorem C4_flat_spec (t : FromParamsImpl V T)
    (fa : FromJsFn V A) (fb : FromJsFn V B) (fc : FromJsFn V C) (fd : FromJsFn V D)
    (ct : Ctx) (fv tv v1 v2 v3 v4 : V) (rest : List V) (a : A) (b : B) (c : C) (d : D)
    (ha : fa ct v1 = Except.ok a) (hb : fb ct v2 = Except.ok b)
    (hc : fc ct v3 = Except.ok c) (hd : fd ct v4 = Except.ok d) :
    (FromParamImpl.flat t).params_required = t.params_requirements ∧
    (∀ q : ParamsAccessor V, (FromParamImpl.flat t).from_param q =
      Except.map (fun xq => (Flat.mk xq.1, xq.2)) (t.from_params q)) ∧
    (from_params_tuple3 (FromParamImpl.plain fa)
        (FromParamImpl.flat (from_params_tuple2 (FromParamImpl.plain fb)
          (FromParamImpl.plain fc)))
        (FromParamImpl.plain fd)).from_params
        (ParamsAccessor.mk (Params.mk ct fv tv (v1 :: v2 :: v3 :: v4 :: rest)) 0) =
      Except.ok ((a, Flat.mk (b, c), d),
        ParamsAccessor.mk (Params.mk ct fv tv (v1 :: v2 :: v3 :: v4 :: rest)) 4) := by
  refine ⟨rfl, ?_, ?_⟩
  · intro q
    show Flat.from_param t q = _
    unfold Flat.from_param
    cases hq : t.from_params q with
    | ok xq =>
      obtain ⟨x, q1⟩ := xq
      simp [Except.map]
    | error e => simp [Except.map]
  · have h1 : (FromParamImpl.plain fa).from_param
        (ParamsAccessor.mk (Params.mk ct fv tv (v1 :: v2 :: v3 :: v4 :: rest)) 0) =
        Except.ok (a, ParamsAccessor.mk (Params.mk ct fv tv (v1 :: v2 :: v3 :: v4 :: rest)) 1) :=
      plain_step fa
        (ParamsAccessor.mk (Params.mk ct fv tv (v1 :: v2 :: v3 :: v4 :: rest)) 0)
        (by simp only [List.length_cons]; omega) a ha
    have h2b : (FromParamImpl.plain fb).from_param
        (ParamsAccessor.mk (Params.mk ct fv tv (v1 :: v2 :: v3 :: v4 :: rest)) 1) =
        Except.ok (b, ParamsAccessor.mk (Params.mk ct fv tv (v1 :: v2 :: v3 :: v4 :: rest)) 2) :=
      plain_step fb
        (ParamsAccessor.mk (Params.mk ct fv tv (v1 :: v2 :: v3 :: v4 :: rest)) 1)
        (by simp only [List.length_cons]; omega) b hb
    have h2c : (FromParamImpl.plain fc).from_param
        (ParamsAccessor.mk (Params.mk ct fv tv (v1 :: v2 :: v3 :: v4 :: rest)) 2) =
        Except.ok (c, ParamsAccessor.mk (Params.mk ct fv tv (v1 :: v2 :: v3 :: v4 :: rest)) 3) :=
      plain_step fc
        (ParamsAccessor.mk (Params.mk ct fv tv (v1 :: v2 :: v3 :: v4 :: rest)) 2)
        (by simp only [List.length_cons]; omega) c hc
    have h2 : (FromParamImpl.flat (from_params_tuple2 (FromParamImpl.plain fb)
        (FromParamImpl.plain fc))).from_param
        (ParamsAccessor.mk (Params.mk ct fv tv (v1 :: v2 :: v3 :: v4 :: rest)) 1) =
        Except.ok (Flat.mk (b, c),
          ParamsAccessor.mk (Params.mk ct fv tv (v1 :: v2 :: v3 :: v4 :: rest)) 3) :=
      flat_step _ _ _ _ (tuple2_step _ _ _ _ _ _ _ h2b h2c)
    have h3 : (FromParamImpl.plain fd).from_param
        (ParamsAccessor.mk (Params.mk ct fv tv (v1 :: v2 :: v3 :: v4 :: rest)) 3) =
        Except.ok (d, ParamsAccessor.mk (Params.mk ct fv tv (v1 :: v2 :: v3 :: v4 :: rest)) 4) :=
      plain_step fd
        (ParamsAccessor.mk (Params.mk ct fv tv (v1 :: v2 :: v3 :: v4 :: rest)) 3)
        (by simp only [List.length_cons]; omega) d hd
    exact tuple3_step _ _ _ _ _ _ _ _ _ _ h1 h2 h3

/-- Witness for C4 at concrete input: identity conversions, receiver and
call-target slots 0, arguments 1, 2, 3, 4. -/
theorem C4_flat_spec_witness :
    (FromParamImpl.flat (from_params_tuple0 (V := Nat))).params_required =
      (from_params_tuple0 (V := Nat)).params_requirements ∧
    (∀ q : ParamsAccessor Nat, (FromParamImpl.flat from_params_tuple0).from_param q =
      Except.map (fun xq => (Flat.mk xq.1, xq.2)) (from_params_tuple0.from_params q)) ∧
    (from_params_tuple3 (FromParamImpl.plain id_conv)
        (FromParamImpl.flat (from_params_tuple2 (FromParamImpl.plain id_conv)
          (FromParamImpl.plain id_conv)))
        (FromParamImpl.plain id_conv)).from_params
        (ParamsAccessor.mk (Params.mk Ctx.mk 0 0 [1, 2, 3, 4]) 0) =
      Except.ok ((1, Flat.mk (2, 3), 4),
        ParamsAccessor.mk (Params.mk Ctx.mk 0 0 [1, 2, 3, 4]) 4) :=
  C4_flat_spec from_params_tuple0 id_conv id_conv id_conv id_conv Ctx.mk 0 0 1 2 3 4 []
    1 2 3 4 rfl rfl rfl rfl

/-- C5: multi-value from-sequence conversion consumes the sequence
front-to-back, one element per tuple position; when the sequence is
exhausted before a position is filled it fails with
MissingArguments(seen length, 1): a 3-tuple given a 2-element sequence
fails with MissingArguments(2, 1), and a single non-tuple target given
an empty sequence fails with MissingArguments(0, 1). -/
theorem C5_from_js_multi_spec (fa : FromJsFn V A) (fb : FromJsFn V B) (fc : FromJsFn V C)
    (ct : Ctx) (v1 v2 v3 : V) (rest : List V) (a : A) (b : B)
    (ha : fa ct v1 = Except.ok a) (hb : fb ct v2 = Except.ok b) :
    from_js_multi3 fa fb fc ct [v1, v2] = Except.error (Error.MissingArguments 2 1) ∧
    (∀ c, fc ct v3 = Except.ok c →
      from_js_multi3 fa fb fc ct (v1 :: v2 :: v3 :: rest) = Except.ok (a, b, c)) ∧
    from_js_multi_single fa ct ([] : List V) = Except.error (Error.MissingArguments 0 1) := by
  refine ⟨?_, ?_, rfl⟩
  · unfold from_js_multi3
    simp [ha, hb]
  · intro c hcv
    unfold from_js_multi3
    simp [ha, hb, hcv]

/-- Witness for C5 at concrete input: identity conversions on Nat and the
sequences [1, 2] and [1, 2, 3]. -/
theorem C5_from_js_multi_spec_witness :
    from_js_multi3 id_conv id_conv id_conv Ctx.mk [1, 2] =
      Except.error (Error.MissingArguments 2 1) ∧
    (∀ c, id_conv Ctx.mk 3 = Except.ok c →
      from_js_multi3 id_conv id_conv id_conv Ctx.mk (1 :: 2 :: 3 :: []) = Except.ok (1, 2, c)) ∧
    from_js_multi_single id_conv Ctx.mk ([] : List Nat) =
      Except.error (Error.MissingArguments 0 1) :=
  C5_from_js_multi_spec id_conv id_conv id_conv Ctx.mk 1 2 3 [] 1 2 rfl rfl

/-- C1: evaluation of the code at the failing input. Against the
signature (This, Opt, Rest) with identity conversions, a snapshot whose
call-target slot holds 20 and whose receiver (this) slot holds 10, called
with arguments [5, 6, 7], extracts (This 20, Opt (some 5), Rest [6, 7]):
the This position reads the call-target slot (because `Params::this`
returns `self.function`), although the two slots differ — the claim and
the documentation of `Params::this` say it should read the receiver
slot 10. -/
theorem C1_this_reads_call_target :
    (from_params_tuple3 (FromParamImpl.this_impl id_conv) (FromParamImpl.opt id_conv)
        (FromParamImpl.rest id_conv)).from_params
        (Params.mk Ctx.mk 20 10 [5, 6, 7]).access =
      Except.ok ((This.mk 20, Opt.mk (some 5), Rest.mk [6, 7]),
        ParamsAccessor.mk (Params.mk Ctx.mk 20 10 [5, 6, 7]) 3) ∧
    (Params.mk Ctx.mk 20 10 [5, 6, 7]).function_slot = 20 ∧
    (Params.mk Ctx.mk 20 10 [5, 6, 7]).this_slot = 10 ∧
    This.mk (20 : Nat) ≠ This.mk (10 : Nat) :=
  ⟨rfl, rfl, rfl, by decide⟩

/-- C10: a position whose requirement is `any` (This, Func or Rest)
saturates the combined maximum at the usize ceiling, so the aggregate of
any signature containing it — the (Rest, Exhaustive) signature for
instance — has max = USIZE_MAX even though its exhaustive flag is set, and
check_params can then never return TooManyArgs for any argument count
representable in usize. -/
theorem C10_exhaustive_ineffective (r : ParamReq) (f : FromJsFn V T) (p : Params V)
    (num : ParamReq) (hmax : num.max = USIZE_MAX) (hn : p.args.length ≤ USIZE_MAX) :
    (ParamReq.any.combine r).max = USIZE_MAX ∧
    (r.combine ParamReq.any).max = USIZE_MAX ∧
    (from_params_tuple2 (FromParamImpl.rest f)
        FromParamImpl.exhaustive_impl).params_requirements = ⟨0, USIZE_MAX, true⟩ ∧
    (∀ e g, p.check_params num ≠ Except.error (Error.TooManyArgs e g)) := by
  refine ⟨?_, ?_, ?_, ?_⟩
  · simp only [ParamReq.combine, ParamReq.any, saturating_add]
    omega
  · simp only [ParamReq.combine, ParamReq.any, saturating_add]
    omega
  · simp only [from_params_tuple2, FromParamImpl.rest, FromParamImpl.exhaustive_impl,
      ParamReq.combine, ParamReq.none_req, ParamReq.any, ParamReq.exhaustive_req,
      saturating_add, ParamReq.mk.injEq]
    refine ⟨by omega, by omega, rfl⟩
  · intro e g
    unfold Params.check_params
    split
    · simp
    · split
      · next h2 =>
        exfalso
        simp only [Bool.and_eq_true, decide_eq_true_eq] at h2
        omega
      · simp

/-- Witness for C10 at concrete input: the empty argument list and the
requirement (0, USIZE_MAX, exhaustive). -/
theorem C10_exhaustive_ineffective_witness :
    (ParamReq.any.combine ParamReq.single).max = USIZE_MAX ∧
    (ParamReq.single.combine ParamReq.any).max = USIZE_MAX ∧
    (from_params_tuple2 (FromParamImpl.rest id_conv)
        FromParamImpl.exhaustive_impl).params_requirements = ⟨0, USIZE_MAX, true⟩ ∧
    (∀ e g, (Params.mk Ctx.mk 0 0 ([] : List Nat)).check_params ⟨0, USIZE_MAX, true⟩ ≠
      Except.error (Error.TooManyArgs e g)) :=
  C10_exhaustive_ineffective ParamReq.single id_conv (Params.mk Ctx.mk 0 0 [])
    ⟨0, USIZE_MAX, true⟩ rfl (by decide)
